import Mathlib

/-!
Verification of the data-base layer of the n-dop simulation package
(file simulation/util/data_base.py), against its natural-language
specification.

The development shallowly embeds the Python code:

* pure numerical code becomes Lean functions over exact arithmetic
  (rationals for the float computations, reals where logarithms occur);
* code that can raise exceptions returns an Except value whose error
  constructors mirror the Python exception classes that can escape
  (SingularMatrixError, numpy.linalg.LinAlgError, AssertionError,
  ValueError, AttributeError);
* the caches (simulation.util.value_cache / util.cache, whose code is
  external to the examined sources) are modelled from the spec as
  explicit association-list states threaded through the methods;
* numpy arrays become lists of rows (last axis = innermost lists).
-/

deriving instance DecidableEq for Except

open Matrix

/-- Errors that can escape the data-base layer.  Each constructor mirrors
one Python exception class raised by the code under study:
singularMatrix is util.math.matrix.SingularMatrixError and carries the
offending correlation-parameter triplet, linAlg is
numpy.linalg.LinAlgError (raised by numpy matrix inversion of a singular
matrix), assertionError is a failed assert statement, valueError and
attributeError carry the relevant message or attribute name. -/
inductive PyErr where
  | singularMatrix (a b c : ℚ) : PyErr
  | linAlg : PyErr
  | assertionError : PyErr
  | valueError (msg : String) : PyErr
  | attributeError (name : String) : PyErr
deriving DecidableEq, Repr

/-! ## Two-group block-correlation engine (class WOD, data_base.py)

The correlation parameters are a triplet (a, b, c); the group sizes
n = m_dop and m = m_po4 are natural numbers (lengths of the DOP and PO4
point lists).  Python computes n-1 with unbounded ints and the rest in
floats; we embed the float arithmetic as exact rationals, writing the
Python expression n-1 as the rational (n : ℚ) - 1 (which also matches
Python for n = 0, where n-1 = -1). -/

/-- Regularity expression (1+(n-1)*a) * (1+(m-1)*b) - n*m*c**2 computed by
WOD.check_regularity (data_base.py line 478). -/
def regularity_factor (a b c : ℚ) (n m : ℕ) : ℚ :=
  (1 + ((n : ℚ) - 1) * a) * (1 + ((m : ℚ) - 1) * b) - (n : ℚ) * (m : ℚ) * c ^ 2

/-- Embedding of WOD.check_regularity (data_base.py lines 473-481): raises
SingularMatrixError carrying (a, b, c) when the regularity factor is
non-positive, otherwise returns without error. -/
def check_regularity (a b c : ℚ) (n m : ℕ) : Except PyErr Unit :=
  if regularity_factor a b c n m ≤ 0 then
    Except.error (PyErr.singularMatrix a b c)
  else
    Except.ok ()

/-- Embedding of WOD.ln_det_correlation_matrix (data_base.py lines
484-492): checks regularity, then returns
(n-1)*ln(1-a) + (m-1)*ln(1-b) + ln((1+(n-1)a)(1+(m-1)b) - n m c^2). -/
noncomputable def ln_det_correlation_matrix (a b c : ℚ) (n m : ℕ) :
    Except PyErr ℝ :=
  (check_regularity a b c n m).map fun _ =>
    ((n : ℝ) - 1) * Real.log (1 - (a : ℝ)) +
      ((m : ℝ) - 1) * Real.log (1 - (b : ℝ)) +
      Real.log ((regularity_factor a b c n m : ℚ) : ℝ)

/-- Embedding of WOD.project (data_base.py lines 495-530) for a stacked
vector argument with projected_value_index = None: the vector is split at
split_index into its two tracer groups, and the method returns the pair
(squared, summed) where squared holds x_i' x_i of each group and summed
holds the componentwise sum of each group. -/
def project (values : List ℚ) (split_index : ℕ) : (ℚ × ℚ) × (ℚ × ℚ) :=
  let v₀ := values.take split_index
  let v₁ := values.drop split_index
  (((v₀.map fun x => x * x).sum, (v₁.map fun x => x * x).sum),
    (v₀.sum, v₁.sum))

/-- Determinant of a 2x2 rational matrix, as numpy computes it for the
explicit 2x2 matrices A, W, H of the projected product. -/
def det2 (M : Matrix (Fin 2) (Fin 2) ℚ) : ℚ :=
  M 0 0 * M 1 1 - M 0 1 * M 1 0

/-- Inverse of a 2x2 rational matrix (numpy matrix .I); meaningful only
when det2 M is nonzero, which the embedding of the projected product
checks before use (numpy raises LinAlgError on a singular matrix). -/
def inv2 (M : Matrix (Fin 2) (Fin 2) ℚ) : Matrix (Fin 2) (Fin 2) ℚ :=
  (det2 M)⁻¹ • !![M 1 1, -(M 0 1); -(M 1 0), M 0 0]

/-- Embedding of WOD.projected_product_inverse_correlation_matrix_both_sides
(data_base.py lines 534-568) for the scalar (vector-factor) case.  It
receives the (squared, summed) pair produced by project, checks
regularity, computes the first part squared_1/(1-a) + squared_2/(1-b),
builds the 2x2 matrices A = [[a,c],[c,b]], W = diag(1-a,1-b),
D = diag(n,m), H = W + D*A, core = W^-1 * A * H^-1 * W^-1, and adds the
second part summed' * core * summed.  The inversions of W and H raise
LinAlgError when the matrix being inverted is singular. -/
def projected_product_inverse_correlation_matrix_both_sides
    (factor_projected : (ℚ × ℚ) × (ℚ × ℚ)) (a b c : ℚ) (n m : ℕ) :
    Except PyErr ℚ :=
  match check_regularity a b c n m with
  | Except.error e => Except.error e
  | Except.ok _ =>
    let factor_squared := factor_projected.1
    let factor_summed := factor_projected.2
    let product₁ := factor_squared.1 / (1 - a) + factor_squared.2 / (1 - b)
    let A : Matrix (Fin 2) (Fin 2) ℚ := !![a, c; c, b]
    let W : Matrix (Fin 2) (Fin 2) ℚ := !![1 - a, 0; 0, 1 - b]
    let D : Matrix (Fin 2) (Fin 2) ℚ := !![(n : ℚ), 0; 0, (m : ℚ)]
    let H : Matrix (Fin 2) (Fin 2) ℚ := W + D * A
    if det2 W = 0 ∨ det2 H = 0 then
      Except.error PyErr.linAlg
    else
      let core : Matrix (Fin 2) (Fin 2) ℚ := inv2 W * A * inv2 H * inv2 W
      let s : Fin 2 → ℚ := ![factor_summed.1, factor_summed.2]
      Except.ok (product₁ + Matrix.dotProduct s (core.mulVec s))

/-- C2: WOD.check_regularity raises a SingularMatrixError carrying the
offending parameter triplet if and only if
(1+(n-1)*a)*(1+(m-1)*b) - n*m*c^2 <= 0 (including exact zero); when the
expression is strictly positive it returns without error.  Both
ln_det_correlation_matrix and projected_product_inverse_correlation_matrix_both_sides
invoke the check before computing, so each raises the same
SingularMatrixError exactly for non-regular parameters. -/
theorem check_regularity_iff_nonregular (a b c : ℚ) (n m : ℕ)
    (factor_projected : (ℚ × ℚ) × (ℚ × ℚ)) :
    (check_regularity a b c n m = Except.error (PyErr.singularMatrix a b c) ↔
      regularity_factor a b c n m ≤ 0) ∧
    (check_regularity a b c n m = Except.ok () ↔
      0 < regularity_factor a b c n m) ∧
    (ln_det_correlation_matrix a b c n m =
        Except.error (PyErr.singularMatrix a b c) ↔
      regularity_factor a b c n m ≤ 0) ∧
    (projected_product_inverse_correlation_matrix_both_sides
        factor_projected a b c n m =
        Except.error (PyErr.singularMatrix a b c) ↔
      regularity_factor a b c n m ≤ 0) := by
  rcases le_or_lt (regularity_factor a b c n m) 0 with h | h
  · refine ⟨⟨fun _ => h, fun _ => ?_⟩, ⟨fun hc => ?_, fun hc => absurd h (not_le.mpr hc)⟩,
      ⟨fun _ => h, fun _ => ?_⟩, ⟨fun _ => h, fun _ => ?_⟩⟩
    · simp [check_regularity, if_pos h]
    · simp [check_regularity, if_pos h] at hc
    · simp [ln_det_correlation_matrix, check_regularity, if_pos h, Except.map]
    · simp [projected_product_inverse_correlation_matrix_both_sides,
        check_regularity, if_pos h]
  · have h' : ¬ regularity_factor a b c n m ≤ 0 := not_le.mpr h
    refine ⟨⟨fun hc => ?_, fun hc => absurd hc h'⟩, ⟨fun _ => h, fun _ => ?_⟩,
      ⟨fun hc => ?_, fun hc => absurd hc h'⟩, ⟨fun hc => ?_, fun hc => absurd hc h'⟩⟩
    · simp [check_regularity, if_neg h'] at hc
    · simp [check_regularity, if_neg h']
    · simp [ln_det_correlation_matrix, check_regularity, if_neg h', Except.map] at hc
    · simp only [projected_product_inverse_correlation_matrix_both_sides,
        check_regularity, if_neg h'] at hc
      split_ifs at hc
      simp_all

/-! ## The explicit two-group block correlation matrix

The spec describes the correlation model as the explicit (n+m) x (n+m)
matrix with unit diagonal, correlation a between distinct group-1
(DOP) observations, b between distinct group-2 (PO4) observations, and c
across the groups.  The following definitions construct that matrix and
the rank-two decomposition used to compute its determinant and inverse. -/

/-- The explicit two-group block correlation matrix Sigma: unit diagonal,
a within group 1, b within group 2, c across groups. -/
def corrMatrix (n m : ℕ) (a b c : ℝ) :
    Matrix (Fin n ⊕ Fin m) (Fin n ⊕ Fin m) ℝ :=
  fun i j =>
    match i, j with
    | Sum.inl i, Sum.inl j => if i = j then 1 else a
    | Sum.inl _, Sum.inr _ => c
    | Sum.inr _, Sum.inl _ => c
    | Sum.inr i, Sum.inr j => if i = j then 1 else b

/-- Diagonal part of the decomposition: (1-a) on group 1, (1-b) on
group 2. -/
def groupDiag (n m : ℕ) (a b : ℝ) :
    Matrix (Fin n ⊕ Fin m) (Fin n ⊕ Fin m) ℝ :=
  Matrix.diagonal (Sum.elim (fun _ : Fin n => 1 - a) (fun _ : Fin m => 1 - b))

/-- Group indicator matrix U: column 0 indicates group 1, column 1
indicates group 2. -/
def groupInd (n m : ℕ) : Matrix (Fin n ⊕ Fin m) (Fin 2) ℝ :=
  fun i k =>
    Sum.elim (fun _ : Fin n => if k = 0 then (1 : ℝ) else 0)
      (fun _ : Fin m => if k = 1 then (1 : ℝ) else 0) i

/-- Group indicator matrix scaled by the inverse diagonal weights. -/
noncomputable def groupIndScaled (n m : ℕ) (a b : ℝ) : Matrix (Fin n ⊕ Fin m) (Fin 2) ℝ :=
  fun i k =>
    Sum.elim (fun _ : Fin n => if k = 0 then (1 - a)⁻¹ else 0)
      (fun _ : Fin m => if k = 1 then (1 - b)⁻¹ else 0) i

/-- The 2x2 matrix A of correlation parameters. -/
def coreA (a b c : ℝ) : Matrix (Fin 2) (Fin 2) ℝ := !![a, c; c, b]

lemma corrMatrix_decomp (n m : ℕ) (a b c : ℝ) :
    corrMatrix n m a b c =
      groupDiag n m a b +
        groupInd n m * coreA a b c * (groupInd n m)ᵀ := by
  ext i j
  cases i with
  | inl i =>
    cases j with
    | inl j =>
      by_cases hij : i = j
      · subst hij
        simp [corrMatrix, groupDiag, groupInd, coreA, Matrix.mul_apply,
          Matrix.diagonal, Fin.sum_univ_two]
      · simp [corrMatrix, groupDiag, groupInd, coreA, Matrix.mul_apply,
          Matrix.diagonal, Fin.sum_univ_two, hij, Sum.inl.injEq]
    | inr j =>
      simp [corrMatrix, groupDiag, groupInd, coreA, Matrix.mul_apply,
        Matrix.diagonal, Fin.sum_univ_two]
  | inr i =>
    cases j with
    | inl j =>
      simp [corrMatrix, groupDiag, groupInd, coreA, Matrix.mul_apply,
        Matrix.diagonal, Fin.sum_univ_two]
    | inr j =>
      by_cases hij : i = j
      · subst hij
        simp [corrMatrix, groupDiag, groupInd, coreA, Matrix.mul_apply,
          Matrix.diagonal, Fin.sum_univ_two]
      · simp [corrMatrix, groupDiag, groupInd, coreA, Matrix.mul_apply,
          Matrix.diagonal, Fin.sum_univ_two, hij, Sum.inr.injEq]

lemma groupDiag_mul_scaled (n m : ℕ) (a b : ℝ) (ha : a ≠ 1) (hb : b ≠ 1) :
    groupDiag n m a b * groupIndScaled n m a b = groupInd n m := by
  have ha' : (1 : ℝ) - a ≠ 0 := sub_ne_zero.mpr (Ne.symm ha)
  have hb' : (1 : ℝ) - b ≠ 0 := sub_ne_zero.mpr (Ne.symm hb)
  ext i k
  cases i with
  | inl i =>
    by_cases hk : k = 0
    · subst hk
      simp [groupDiag, groupIndScaled, groupInd, Matrix.diagonal_mul,
        mul_inv_cancel₀ ha']
    · simp [groupDiag, groupIndScaled, groupInd, Matrix.diagonal_mul, hk]
  | inr i =>
    by_cases hk : k = 1
    · subst hk
      simp [groupDiag, groupIndScaled, groupInd, Matrix.diagonal_mul,
        mul_inv_cancel₀ hb']
    · simp [groupDiag, groupIndScaled, groupInd, Matrix.diagonal_mul, hk]

lemma transpose_mul_scaled (n m : ℕ) (a b : ℝ) :
    (groupInd n m)ᵀ * groupIndScaled n m a b =
      !![(n : ℝ) * (1 - a)⁻¹, 0; 0, (m : ℝ) * (1 - b)⁻¹] := by
  ext k l
  fin_cases k <;> fin_cases l <;>
    simp [Matrix.mul_apply, groupInd, groupIndScaled, Fintype.sum_sum_type,
      Finset.sum_const, Finset.card_univ, Matrix.transpose_apply,
      nsmul_eq_mul]

lemma corrMatrix_det (n m : ℕ) (hn : 1 ≤ n) (hm : 1 ≤ m) (a b c : ℝ)
    (ha : a ≠ 1) (hb : b ≠ 1) :
    (corrMatrix n m a b c).det =
      (1 - a) ^ (n - 1) * (1 - b) ^ (m - 1) *
        ((1 + ((n : ℝ) - 1) * a) * (1 + ((m : ℝ) - 1) * b) -
          (n : ℝ) * (m : ℝ) * c ^ 2) := by
  have ha' : (1 : ℝ) - a ≠ 0 := sub_ne_zero.mpr (Ne.symm ha)
  have hb' : (1 : ℝ) - b ≠ 0 := sub_ne_zero.mpr (Ne.symm hb)
  have hfact : corrMatrix n m a b c =
      groupDiag n m a b *
        (1 + groupIndScaled n m a b * coreA a b c * (groupInd n m)ᵀ) := by
    rw [Matrix.mul_add, Matrix.mul_one, corrMatrix_decomp n m a b c]
    congr 1
    rw [← Matrix.mul_assoc, ← Matrix.mul_assoc,
      groupDiag_mul_scaled n m a b ha hb]
  have hdiag : (groupDiag n m a b).det = (1 - a) ^ n * (1 - b) ^ m := by
    rw [groupDiag, Matrix.det_diagonal, Fintype.prod_sum_type]
    simp [Finset.prod_const, Finset.card_univ]
  have hWA : (1 + groupIndScaled n m a b * coreA a b c * (groupInd n m)ᵀ).det
      = (1 + (groupInd n m)ᵀ * (groupIndScaled n m a b * coreA a b c)).det :=
    Matrix.det_one_add_mul_comm (groupIndScaled n m a b * coreA a b c)
      ((groupInd n m)ᵀ)
  have h2 : (1 + (groupInd n m)ᵀ *
      (groupIndScaled n m a b * coreA a b c)).det =
      (1 + (n : ℝ) * (1 - a)⁻¹ * a) * (1 + (m : ℝ) * (1 - b)⁻¹ * b) -
        ((n : ℝ) * (1 - a)⁻¹ * c) * ((m : ℝ) * (1 - b)⁻¹ * c) := by
    rw [← Matrix.mul_assoc, transpose_mul_scaled, Matrix.det_fin_two]
    simp [coreA, Matrix.mul_apply, Fin.sum_univ_two, Matrix.one_apply]
  rw [hfact, Matrix.det_mul, hdiag, hWA, h2]
  have hpa : (1 - a) ^ n = (1 - a) ^ (n - 1) * (1 - a) := by
    rw [Nat.sub_one, ← pow_succ]
    congr 1
    rw [Nat.pred_eq_sub_one]
    omega
  have hpb : (1 - b) ^ m = (1 - b) ^ (m - 1) * (1 - b) := by
    rw [Nat.sub_one, ← pow_succ]
    congr 1
    rw [Nat.pred_eq_sub_one]
    omega
  rw [hpa, hpb]
  field_simp
  ring

lemma regularity_factor_cast (a b c : ℚ) (n m : ℕ) :
    ((regularity_factor a b c n m : ℚ) : ℝ) =
      (1 + ((n : ℝ) - 1) * (a : ℝ)) * (1 + ((m : ℝ) - 1) * (b : ℝ)) -
        (n : ℝ) * (m : ℝ) * (c : ℝ) ^ 2 := by
  rw [regularity_factor]
  push_cast
  ring

/-- C3: for every correlation parameter triplet (a, b, c) with group sizes
n = m_dop and m = m_po4 satisfying the regularity condition (with the
correlation parameters in the admissible range a < 1, b < 1, so that the
logarithms in the formula are defined), WOD.ln_det_correlation_matrix
returns exactly (n-1)*ln(1-a) + (m-1)*ln(1-b) +
ln((1+(n-1)*a)*(1+(m-1)*b) - n*m*c^2), and that value equals
ln det Sigma for the explicit two-group block correlation matrix Sigma. -/
theorem ln_det_correlation_matrix_eq_log_det (a b c : ℚ) (n m : ℕ)
    (hn : 1 ≤ n) (hm : 1 ≤ m) (ha : a < 1) (hb : b < 1)
    (hreg : 0 < regularity_factor a b c n m) :
    ln_det_correlation_matrix a b c n m =
      Except.ok (((n : ℝ) - 1) * Real.log (1 - (a : ℝ)) +
        ((m : ℝ) - 1) * Real.log (1 - (b : ℝ)) +
        Real.log ((regularity_factor a b c n m : ℚ) : ℝ)) ∧
    ((n : ℝ) - 1) * Real.log (1 - (a : ℝ)) +
        ((m : ℝ) - 1) * Real.log (1 - (b : ℝ)) +
        Real.log ((regularity_factor a b c n m : ℚ) : ℝ) =
      Real.log ((corrMatrix n m (a : ℝ) (b : ℝ) (c : ℝ)).det) := by
  have haR : (a : ℝ) < 1 := by exact_mod_cast ha
  have hbR : (b : ℝ) < 1 := by exact_mod_cast hb
  have ha1 : (a : ℝ) ≠ 1 := ne_of_lt haR
  have hb1 : (b : ℝ) ≠ 1 := ne_of_lt hbR
  have ha' : (0 : ℝ) < 1 - (a : ℝ) := by linarith
  have hb' : (0 : ℝ) < 1 - (b : ℝ) := by linarith
  have hregR : (0 : ℝ) < ((regularity_factor a b c n m : ℚ) : ℝ) := by
    exact_mod_cast hreg
  constructor
  · simp [ln_det_correlation_matrix, check_regularity,
      if_neg (not_le.mpr hreg), Except.map]
  · rw [corrMatrix_det n m hn hm (a : ℝ) (b : ℝ) (c : ℝ) ha1 hb1]
    rw [← regularity_factor_cast a b c n m]
    rw [Real.log_mul (mul_ne_zero (pow_ne_zero _ (ne_of_gt ha'))
        (pow_ne_zero _ (ne_of_gt hb'))) (ne_of_gt hregR),
      Real.log_mul (pow_ne_zero _ (ne_of_gt ha'))
        (pow_ne_zero _ (ne_of_gt hb')),
      Real.log_pow, Real.log_pow]
    have hcn : ((n - 1 : ℕ) : ℝ) = (n : ℝ) - 1 := by
      push_cast [Nat.cast_sub hn]
      ring
    have hcm : ((m - 1 : ℕ) : ℝ) = (m : ℝ) - 1 := by
      push_cast [Nat.cast_sub hm]
      ring
    rw [hcn, hcm]

/-- Witness for C3 at the concrete input a = b = c = 0, n = m = 1. -/
theorem ln_det_correlation_matrix_eq_log_det_witness :
    ((1 : ℕ) ≤ 1 ∧ (0 : ℚ) < 1 ∧ 0 < regularity_factor 0 0 0 1 1) ∧
    (ln_det_correlation_matrix 0 0 0 1 1 =
      Except.ok (((1 : ℝ) - 1) * Real.log (1 - ((0 : ℚ) : ℝ)) +
        ((1 : ℝ) - 1) * Real.log (1 - ((0 : ℚ) : ℝ)) +
        Real.log ((regularity_factor 0 0 0 1 1 : ℚ) : ℝ)) ∧
    ((1 : ℝ) - 1) * Real.log (1 - ((0 : ℚ) : ℝ)) +
        ((1 : ℝ) - 1) * Real.log (1 - ((0 : ℚ) : ℝ)) +
        Real.log ((regularity_factor 0 0 0 1 1 : ℚ) : ℝ) =
      Real.log ((corrMatrix 1 1 ((0 : ℚ) : ℝ) ((0 : ℚ) : ℝ)
        ((0 : ℚ) : ℝ)).det)) := by
  refine ⟨⟨le_refl 1, by norm_num, by norm_num [regularity_factor]⟩, ?_⟩
  have h := ln_det_correlation_matrix_eq_log_det 0 0 0 1 1 (le_refl 1)
    (le_refl 1) (by norm_num) (by norm_num) (by norm_num [regularity_factor])
  exact_mod_cast h

/-- Stacked vector x = (1, 0) for the failing input of C1: one DOP
observation with value 1, one PO4 observation with value 0. -/
def ceVector : Fin 1 ⊕ Fin 1 → ℝ :=
  Sum.elim (fun _ => 1) (fun _ => 0)

/-- Explicit inverse of the 2x2 correlation matrix with a = b = 0,
c = 1/2 (namely [[1, 1/2], [1/2, 1]]). -/
noncomputable def ceInverse : Matrix (Fin 1 ⊕ Fin 1) (Fin 1 ⊕ Fin 1) ℝ :=
  fun i j =>
    match i, j with
    | Sum.inl _, Sum.inl _ => 4 / 3
    | Sum.inr _, Sum.inr _ => 4 / 3
    | _, _ => -(2 / 3)

lemma ceInverse_right_inv :
    corrMatrix 1 1 0 0 (1 / 2) * ceInverse = 1 := by
  ext i j
  cases i with
  | inl i =>
    cases j with
    | inl j =>
      simp [corrMatrix, ceInverse, Matrix.mul_apply, Fintype.sum_sum_type,
        Fin.sum_univ_one, Matrix.one_apply, Sum.inl.injEq,
        Subsingleton.elim i j, Fin.eq_zero]
      norm_num
    | inr j =>
      simp [corrMatrix, ceInverse, Matrix.mul_apply, Fintype.sum_sum_type,
        Fin.sum_univ_one, Matrix.one_apply, Fin.eq_zero]
      norm_num
  | inr i =>
    cases j with
    | inl j =>
      simp [corrMatrix, ceInverse, Matrix.mul_apply, Fintype.sum_sum_type,
        Fin.sum_univ_one, Matrix.one_apply, Fin.eq_zero]
      norm_num
    | inr j =>
      simp [corrMatrix, ceInverse, Matrix.mul_apply, Fintype.sum_sum_type,
        Fin.sum_univ_one, Matrix.one_apply, Sum.inr.injEq,
        Subsingleton.elim i j, Fin.eq_zero]
      norm_num

lemma corrMatrix_ce_inv :
    (corrMatrix 1 1 0 0 (1 / 2))⁻¹ = ceInverse :=
  Matrix.inv_eq_right_inv ceInverse_right_inv

/-- C1 (refuted; the code contradicts the spec's exact identity): at the
regular input a = 0, b = 0, c = 1/2 with group sizes n = m_dop = 1,
m = m_po4 = 1 and stacked vector x = (1, 0), the value returned by
WOD.projected_product_inverse_correlation_matrix_both_sides applied to
the pair produced by WOD.project(x, 1) is 2/3, while the true quadratic
form x' Sigma^-1 x for the explicitly constructed two-group block
correlation matrix Sigma = [[1, 1/2], [1/2, 1]] is 4/3.  The regularity
condition holds (the factor is 3/4 > 0), so the code's second product
part summed' (W^-1 A H^-1 W^-1) summed does not reproduce the inverse of
Sigma (the exact identity requires part1 - summed' (W^-1 A H^-1) summed
instead). -/
theorem projected_product_deviates_from_inverse_quadratic_form :
    0 < regularity_factor 0 0 (1 / 2) 1 1 ∧
    projected_product_inverse_correlation_matrix_both_sides
        (project [1, 0] 1) 0 0 (1 / 2) 1 1 = Except.ok (2 / 3) ∧
    Matrix.dotProduct ceVector
        (((corrMatrix 1 1 0 0 (1 / 2))⁻¹).mulVec ceVector) = 4 / 3 ∧
    ((2 / 3 : ℚ) : ℝ) ≠ (4 / 3 : ℝ) := by
  refine ⟨by norm_num [regularity_factor], ?_, ?_, by norm_num⟩
  · norm_num [projected_product_inverse_correlation_matrix_both_sides,
      check_regularity, regularity_factor, project, det2, inv2,
      Matrix.mul_apply, Matrix.dotProduct, Matrix.mulVec, Fin.sum_univ_two,
      Matrix.smul_apply, Matrix.add_apply]
  · rw [corrMatrix_ce_inv]
    simp [Matrix.dotProduct, Matrix.mulVec, Fintype.sum_sum_type,
      Fin.sum_univ_one, ceVector, ceInverse]

/-! ## Cache model and the DataBase / DataBaseHDD accessors

Numpy arrays are modelled as nested lists: a Jacobian (m x p) is the
list of its m rows; a boxes series is the list over axis 0 of lists over
the time axis (spatial axes are collapsed into single entries, which the
claims never inspect); a df boxes series additionally nests the
parameter axis innermost. -/

/-- The m x p Jacobian array, as the list of its rows. -/
abbrev Arr2 : Type := List (List ℚ)

/-- Boxes series: axis 0 (tracer), then the time axis. -/
abbrev BoxArr : Type := List (List ℚ)

/-- Jacobian boxes series: axis 0 (tracer), time axis, parameter axis. -/
abbrev Arr3 : Type := List (List (List ℚ))

/-- Numpy shape[-1] of a 2-D array: the length of its first row. -/
def cols2 (arr : Arr2) : ℕ := ((arr.head?).map List.length).getD 0

/-- Numpy shape[1] of a boxes array: the length of its first axis-0
entry, i.e. the length of the time axis. -/
def shape1 (arr : BoxArr) : ℕ := ((arr.head?).map List.length).getD 0

/-- Numpy shape[1] of a 3-D boxes array: the length of the time axis of
its first axis-0 entry. -/
def shape1_3 (arr : Arr3) : ℕ := ((arr.head?).map List.length).getD 0

/-- Numpy shape[-1] of a 3-D array: the length of its first innermost
row. -/
def cols3 (arr : Arr3) : ℕ :=
  ((arr.head?.bind List.head?).map List.length).getD 0

/-- Truncation of a 3-D array to its first p entries along the last
axis, i.e. the numpy slicing df_boxes[..., :p]. -/
def truncate3 (arr : Arr3) (p : ℕ) : Arr3 :=
  arr.map (fun ts => ts.map (fun row => row.take p))

/-- Modelled from the spec: the persistent cache tier
(simulation.util.value_cache.Cache is part of the repository but not
among the examined sources).  Spec section 4.1: get_value looks the key
up, returns the stored payload on a hit, and on a miss computes the
payload, persists it and returns it; save_value overwrites the entry
directly.  The cache is an association list from (parameter vector,
filename) to payload; the most recently stored entry wins. -/
abbrev HddCache (α : Type) : Type := List ((List ℚ × String) × α)

/-- Lookup in the persistent cache: first (most recent) matching entry. -/
def cacheLookup {α : Type} (cache : HddCache α) (key : List ℚ × String) :
    Option α :=
  (cache.find? (fun e => decide (e.1 = key))).map (fun e => e.2)

/-- Embedding of save_value: overwrites the entry for the key. -/
def cacheStore {α : Type} (cache : HddCache α) (key : List ℚ × String)
    (v : α) : HddCache α :=
  (key, v) :: cache

/-- Embedding of get_value: hit returns the stored payload, miss
computes, stores and returns it.  The boolean records whether the
compute function (the model evaluator) was invoked. -/
def cache_get_value {α : Type} (cache : HddCache α) (key : List ℚ × String)
    (calcFn : List ℚ → α) : α × HddCache α × Bool :=
  match cacheLookup cache key with
  | some v => (v, cache, false)
  | none =>
    let v := calcFn key.1
    (v, cacheStore cache key v, true)

/-- Embedding of DataBaseHDD.df (data_base.py lines 267-285): fetch the
Jacobian from the persistent cache under the DF filename, assert it is
2-D with m rows, truncate the last axis to len(parameters) columns when
the cached array has more, recompute via df_calculate and overwrite the
cache entry when it has fewer, and finally assert that the result has
exactly len(parameters) columns.  The boolean in the result records
whether df_calculate was invoked. -/
def DataBaseHDD_df (cache : HddCache Arr2) (DF_cache_filename : String)
    (mObs : ℕ) (parameters : List ℚ) (df_calculate : List ℚ → Arr2) :
    Except PyErr (Arr2 × HddCache Arr2 × Bool) :=
  let r0 := cache_get_value cache (parameters, DF_cache_filename)
    df_calculate
  let df0 := r0.1
  let p := parameters.length
  if df0.length = mObs then
    if cols2 df0 > p then
      let df1 := df0.map (fun row => row.take p)
      if cols2 df1 = p then Except.ok (df1, r0.2.1, r0.2.2)
      else Except.error PyErr.assertionError
    else if cols2 df0 < p then
      let df1 := df_calculate parameters
      let cache2 := cacheStore r0.2.1 (parameters, DF_cache_filename) df1
      if cols2 df1 = p then Except.ok (df1, cache2, true)
      else Except.error PyErr.assertionError
    else
      if cols2 df0 = p then Except.ok (df0, r0.2.1, r0.2.2)
      else Except.error PyErr.assertionError
  else Except.error PyErr.assertionError

/-- Modelled from the spec: the parameter-scoped memory cache
(simulation.util.value_cache.MemoryCache is part of the repository but
not among the examined sources).  Spec section 2, ParameterMemoryCache:
entries are keyed by (parameter vector, quantity name) and only the most
recent parameter vector's entries are retained; a fresh parameter vector
supersedes the previous resident entry. -/
structure ParamMemCache where
  resident : Option (List ℚ × List (String × Arr2))
deriving DecidableEq, Repr

/-- Lookup in the parameter-scoped memory cache. -/
def pmcLookup (c : ParamMemCache) (params : List ℚ) (name : String) :
    Option Arr2 :=
  match c.resident with
  | some pe =>
    if pe.1 = params then
      ((pe.2.find? (fun e => decide (e.1 = name))).map (fun e => e.2))
    else none
  | none => none

/-- Store in the parameter-scoped memory cache, superseding the resident
entries when the parameter vector changes. -/
def pmcStore (c : ParamMemCache) (params : List ℚ) (name : String)
    (v : Arr2) : ParamMemCache :=
  match c.resident with
  | some pe =>
    if pe.1 = params then ⟨some (pe.1, (name, v) :: pe.2)⟩
    else ⟨some (params, [(name, v)])⟩
  | none => ⟨some (params, [(name, v)])⟩

/-- The get_value of the parameter-scoped memory cache; the boolean
records whether the compute function was invoked. -/
def pmcGet (c : ParamMemCache) (params : List ℚ) (name : String)
    (calcFn : List ℚ → Arr2) : Arr2 × ParamMemCache × Bool :=
  match pmcLookup c params name with
  | some v => (v, c, false)
  | none =>
    let v := calcFn params
    (v, pmcStore c params name v, true)

/-- Embedding of DataBase.df (data_base.py lines 140-158): fetch the
Jacobian from the parameter-scoped memory cache under the name DF,
assert it is 2-D with m rows and with either len(parameters) or
len(parameters)+1 columns, then truncate a surplus column, or recompute
and overwrite when columns are missing (the elif branch of line 152).
The two booleans in the result record whether df_calculate was invoked
and whether the recompute (stale) branch of line 152 was executed. -/
def DataBase_df (cache : ParamMemCache) (mObs : ℕ) (parameters : List ℚ)
    (df_calculate : List ℚ → Arr2) :
    Except PyErr (Arr2 × ParamMemCache × Bool × Bool) :=
  let r0 := pmcGet cache parameters "DF" df_calculate
  let df0 := r0.1
  let p := parameters.length
  if df0.length = mObs ∧ (cols2 df0 = p ∨ cols2 df0 = p + 1) then
    if cols2 df0 > p then
      Except.ok (df0.map (fun row => row.take p), r0.2.1, r0.2.2, false)
    else if cols2 df0 < p then
      let df1 := df_calculate parameters
      Except.ok (df1, pmcStore r0.2.1 parameters "DF" df1, true, true)
    else Except.ok (df0, r0.2.1, r0.2.2, false)
  else Except.error PyErr.assertionError

/-- The canonical boxes time dimension DEFAULT_BOXES_T_DIM
(data_base.py line 22). -/
def DEFAULT_BOXES_T_DIM : ℕ := 12

/-- Mean of a list of rationals (0 for the empty list, which the
reconciled call sites never produce). -/
def meanQ (xs : List ℚ) : ℚ := xs.sum / (xs.length : ℚ)

/-- Elementwise mean of a block of parameter rows. -/
def meanRows (rows : List (List ℚ)) : List ℚ :=
  match rows with
  | [] => []
  | r :: rs =>
    (rs.foldl (fun acc row => acc.zipWith (fun x y => x + y) row) r).map
      (fun x => x / ((rows.length : ℕ) : ℚ))

/-- Modelled from the spec: util.math.interpolate.change_dim (an external
collaborator, not among the examined sources) downsamples a time series
of length T to a coarser time dimension tNew by averaging consecutive
blocks (spec section 4.3: averaging or equivalent resampling over the
time axis); the result has exactly tNew entries. -/
def change_dim_scalar (row : List ℚ) (tNew : ℕ) : List ℚ :=
  let T := row.length
  (List.range tNew).map
    (fun i => meanQ ((row.drop (i * (T / tNew))).take (T / tNew)))

/-- Time downsampling of a boxes series (axis 1 of an f boxes array). -/
def boxes_change_dim (arr : BoxArr) (tNew : ℕ) : BoxArr :=
  arr.map (fun row => change_dim_scalar row tNew)

/-- Time downsampling of a df boxes series (axis 1 of a df boxes
array): each block of time steps is averaged elementwise over the
parameter rows. -/
def df_boxes_change_dim (arr : Arr3) (tNew : ℕ) : Arr3 :=
  arr.map (fun ts =>
    let T := ts.length
    (List.range tNew).map
      (fun i => meanRows ((ts.drop (i * (T / tNew))).take (T / tNew))))

/-- Embedding of DataBase.f_boxes (data_base.py lines 76-88): compute
(or fetch) the series at calculation_time_dim = max(time_dim, 12) under
the filename for that dimension, downsample to time_dim when the request
is coarser than the canonical dimension, and assert that the returned
time axis has exactly time_dim entries.  The boolean records whether
f_boxes_calculate was invoked. -/
def DataBase_f_boxes (cache : HddCache BoxArr) (fname : ℕ → String)
    (parameters : List ℚ) (time_dim : ℕ)
    (f_boxes_calculate : List ℚ → ℕ → BoxArr) :
    Except PyErr (BoxArr × HddCache BoxArr × Bool) :=
  let ctd := max time_dim DEFAULT_BOXES_T_DIM
  let r0 := cache_get_value cache (parameters, fname ctd)
    (fun p => f_boxes_calculate p ctd)
  let data := if time_dim < DEFAULT_BOXES_T_DIM then
    boxes_change_dim r0.1 time_dim else r0.1
  if shape1 data = time_dim then Except.ok (data, r0.2.1, r0.2.2)
  else Except.error PyErr.assertionError

/-- Embedding of DataBase.df_boxes (data_base.py lines 101-126): compute
(or fetch) the Jacobian series at calculation_time_dim = max(time_dim,
12), truncate the parameter axis when the cached array has too many
partial derivatives, recompute at the canonical dimension and overwrite
the cache entry when it has too few, downsample the time axis when the
request is coarser than the canonical dimension, and assert that the
result has time_dim time steps and len(parameters) columns.  The boolean
records whether df_boxes_calculate was invoked. -/
def DataBase_df_boxes (cache : HddCache Arr3) (fname : ℕ → String)
    (parameters : List ℚ) (time_dim : ℕ)
    (df_boxes_calculate : List ℚ → ℕ → Arr3) :
    Except PyErr (Arr3 × HddCache Arr3 × Bool) :=
  let ctd := max time_dim DEFAULT_BOXES_T_DIM
  let key : List ℚ × String := (parameters, fname ctd)
  let r0 := cache_get_value cache key (fun p => df_boxes_calculate p ctd)
  let p := parameters.length
  let r1 : Arr3 × HddCache Arr3 × Bool :=
    if cols3 r0.1 > p then
      (truncate3 r0.1 p, r0.2.1, r0.2.2)
    else if cols3 r0.1 < p then
      let fresh := df_boxes_calculate parameters ctd
      (fresh, cacheStore r0.2.1 key fresh, true)
    else (r0.1, r0.2.1, r0.2.2)
  let df2 := if time_dim < DEFAULT_BOXES_T_DIM then
    df_boxes_change_dim r1.1 time_dim else r1.1
  if shape1_3 df2 = time_dim ∧ cols3 df2 = p then
    Except.ok (df2, r1.2.1, r1.2.2)
  else Except.error PyErr.assertionError

/-- C8: in DataBase.df, the assertion requires the cached Jacobian to
have exactly len(parameters) or len(parameters)+1 columns before
reconciliation runs; for every cached Jacobian whose column count is
less than len(parameters) or greater than len(parameters)+1 the call
fails with an AssertionError instead of reconciling, only a surplus of
exactly one column is ever truncated, and the stale-recompute branch is
unreachable in this method (the last boolean of any successful result is
false). -/
theorem DataBase_df_assert_guards (cache : ParamMemCache) (mObs : ℕ)
    (parameters : List ℚ) (df_calculate : List ℚ → Arr2) (cached : Arr2)
    (hhit : pmcLookup cache parameters "DF" = some cached)
    (hlen : cached.length = mObs) :
    (cols2 cached < parameters.length ∨
        parameters.length + 1 < cols2 cached →
      DataBase_df cache mObs parameters df_calculate =
        Except.error PyErr.assertionError) ∧
    (cols2 cached = parameters.length + 1 →
      DataBase_df cache mObs parameters df_calculate =
        Except.ok (cached.map (fun row => row.take parameters.length),
          cache, false, false)) ∧
    (∀ (c' : ParamMemCache) (m' : ℕ) (ps : List ℚ)
        (f : List ℚ → Arr2) (r : Arr2 × ParamMemCache × Bool × Bool),
      DataBase_df c' m' ps f = Except.ok r → r.2.2.2 = false) := by
  refine ⟨?_, ?_, ?_⟩
  · intro hbad
    simp only [DataBase_df, pmcGet, hhit]
    rw [if_neg]
    rintro ⟨-, h2⟩
    omega
  · intro hcols
    simp only [DataBase_df, pmcGet, hhit]
    rw [if_pos ⟨hlen, Or.inr hcols⟩, if_pos (by omega)]
  · intro c' m' ps f r h
    simp only [DataBase_df] at h
    split_ifs at h with h1 h2 h3
    · cases h
      rfl
    · omega
    · cases h
      rfl

lemma cols2_map_take (arr : Arr2) (p : ℕ) (h : p ≤ cols2 arr) :
    cols2 (arr.map (fun row => row.take p)) = p := by
  cases arr with
  | nil =>
    simp [cols2] at h ⊢
    omega
  | cons r rs =>
    simp [cols2] at h ⊢
    omega

lemma shape1_3_truncate3 (arr : Arr3) (p : ℕ) :
    shape1_3 (truncate3 arr p) = shape1_3 arr := by
  cases arr <;> simp [shape1_3, truncate3]

lemma cols3_truncate3 (arr : Arr3) (p : ℕ) (h : p ≤ cols3 arr)
    (hs : 0 < shape1_3 arr) : cols3 (truncate3 arr p) = p := by
  cases arr with
  | nil => simp [shape1_3] at hs
  | cons ts rest =>
    cases ts with
    | nil => simp [shape1_3] at hs
    | cons row rows =>
      simp [cols3, truncate3] at h ⊢
      omega

/-- C4: for every parameter vector of length p, whenever the cached
Jacobian has more than p columns in its last axis, the df accessors
DataBaseHDD.df and DataBase.df_boxes (the latter at the canonical time
dimension) return exactly the first p columns of the cached array, with
all other entries unchanged, without invoking the model evaluator (the
boolean in the result is false) and without modifying the cache. -/
theorem df_truncation_returns_prefix_columns
    (cache : HddCache Arr2) (DFname : String) (mObs : ℕ)
    (parameters : List ℚ) (df_calculate : List ℚ → Arr2) (cached : Arr2)
    (hhit : cacheLookup cache (parameters, DFname) = some cached)
    (hlen : cached.length = mObs)
    (hmore : parameters.length < cols2 cached)
    (cache3 : HddCache Arr3) (fname3 : ℕ → String)
    (df_boxes_calculate : List ℚ → ℕ → Arr3) (cached3 : Arr3)
    (hhit3 : cacheLookup cache3 (parameters, fname3 12) = some cached3)
    (hshape3 : shape1_3 cached3 = 12)
    (hmore3 : parameters.length < cols3 cached3) :
    DataBaseHDD_df cache DFname mObs parameters df_calculate =
      Except.ok (cached.map (fun row => row.take parameters.length),
        cache, false) ∧
    DataBase_df_boxes cache3 fname3 parameters 12 df_boxes_calculate =
      Except.ok (truncate3 cached3 parameters.length, cache3, false) := by
  constructor
  · simp only [DataBaseHDD_df, cache_get_value, hhit]
    rw [if_pos hlen, if_pos hmore,
      if_pos (cols2_map_take cached parameters.length (le_of_lt hmore))]
  · have hctd : max 12 DEFAULT_BOXES_T_DIM = 12 := by
      simp [DEFAULT_BOXES_T_DIM]
    simp only [DataBase_df_boxes, cache_get_value, hctd, hhit3]
    rw [if_pos hmore3]
    have hlt : ¬ (12 < DEFAULT_BOXES_T_DIM) := by
      simp [DEFAULT_BOXES_T_DIM]
    rw [if_neg hlt]
    rw [if_pos ⟨by rw [shape1_3_truncate3, hshape3],
      cols3_truncate3 cached3 parameters.length (le_of_lt hmore3)
        (by omega)⟩]

/-- Witness for C4 at a concrete input: a 1 x 2 cached Jacobian and a
1 x 12 x 2 cached Jacobian boxes series, truncated to a single
parameter. -/
theorem df_truncation_returns_prefix_columns_witness :
    (cacheLookup [(([5], "DF.npy"), [[2, 3]])] ([5], "DF.npy") =
        some [[2, 3]] ∧
      ([[2, 3]] : Arr2).length = 1 ∧
      ([5] : List ℚ).length < cols2 [[2, 3]] ∧
      cacheLookup [(([5], "df_boxes_12"), [List.replicate 12 [4, 6]])]
          ([5], "df_boxes_12") = some [List.replicate 12 [4, 6]] ∧
      shape1_3 [List.replicate 12 [4, 6]] = 12 ∧
      ([5] : List ℚ).length < cols3 [List.replicate 12 [4, 6]]) ∧
    (DataBaseHDD_df [(([5], "DF.npy"), [[2, 3]])] "DF.npy" 1 [5]
        (fun _ => [[0, 0]]) =
      Except.ok ([[2, 3]].map (fun row => row.take ([5] : List ℚ).length),
        [(([5], "DF.npy"), [[2, 3]])], false) ∧
    DataBase_df_boxes [(([5], "df_boxes_12"), [List.replicate 12 [4, 6]])]
        (fun _ => "df_boxes_12") [5] 12 (fun _ _ => [[[0, 0]]]) =
      Except.ok (truncate3 [List.replicate 12 [4, 6]] ([5] : List ℚ).length,
        [(([5], "df_boxes_12"), [List.replicate 12 [4, 6]])], false)) := by
  refine ⟨⟨?_, ?_, ?_, ?_, ?_, ?_⟩, ?_⟩
  · simp [cacheLookup]
  · simp
  · simp [cols2]
  · simp [cacheLookup]
  · simp [shape1_3]
  · simp [cols3]
  · exact df_truncation_returns_prefix_columns
      [(([5], "DF.npy"), [[2, 3]])] "DF.npy" 1 [5] (fun _ => [[0, 0]])
      [[2, 3]] (by simp [cacheLookup]) (by simp) (by simp [cols2])
      [(([5], "df_boxes_12"), [List.replicate 12 [4, 6]])]
      (fun _ => "df_boxes_12") (fun _ _ => [[[0, 0]]])
      [List.replicate 12 [4, 6]] (by simp [cacheLookup])
      (by simp [shape1_3]) (by simp [cols3])

lemma cacheLookup_store {α : Type} (cache : HddCache α)
    (key : List ℚ × String) (v : α) :
    cacheLookup (cacheStore cache key v) key = some v := by
  simp [cacheLookup, cacheStore]

/-- Counterexample to C5 as stated: DataBase.df (the parameter-scoped
memory-cache accessor, one of the accessors the claim quantifies over)
does not recompute when the cached Jacobian has fewer columns than
len(parameters); its assertion fails first.  With the 1 x 1 Jacobian
[[5]] cached for the two-element parameter vector [3, 4] and an
evaluator returning the 1 x 2 Jacobian [[7, 8]], the call raises
AssertionError instead of returning the evaluator's output. -/
theorem DataBase_df_stale_raises_instead_of_recomputing :
    DataBase_df ⟨some ([3, 4], [("DF", [[5]])])⟩ 1 [3, 4]
      (fun _ => [[7, 8]]) = Except.error PyErr.assertionError := by
  norm_num [DataBase_df, pmcGet, pmcLookup, cols2, List.find?]

/-- C5 (amended): for every parameter vector of length p, whenever the
cached Jacobian has fewer than p columns in its last axis, the
persistent-cache df accessors (DataBaseHDD.df, and DataBase.df_boxes at
the canonical time dimension) recompute the full Jacobian via the model
evaluator at the current p, overwrite the cache entry with the fresh
result via save_value, and return an array whose last axis has exactly p
columns and equals the evaluator's direct output at p.  (DataBase.df,
which the original claim also listed, instead fails its column-count
assertion on this path; see the counterexample.) -/
theorem df_stale_recompute_overwrites_and_returns_fresh
    (cache : HddCache Arr2) (DFname : String) (mObs : ℕ)
    (parameters : List ℚ) (df_calculate : List ℚ → Arr2) (cached : Arr2)
    (hhit : cacheLookup cache (parameters, DFname) = some cached)
    (hlen : cached.length = mObs)
    (hfewer : cols2 cached < parameters.length)
    (hfresh : cols2 (df_calculate parameters) = parameters.length)
    (cache3 : HddCache Arr3) (fname3 : ℕ → String)
    (df_boxes_calculate : List ℚ → ℕ → Arr3) (cached3 : Arr3)
    (hhit3 : cacheLookup cache3 (parameters, fname3 12) = some cached3)
    (hfewer3 : cols3 cached3 < parameters.length)
    (hfresh3shape : shape1_3 (df_boxes_calculate parameters 12) = 12)
    (hfresh3cols :
      cols3 (df_boxes_calculate parameters 12) = parameters.length) :
    (DataBaseHDD_df cache DFname mObs parameters df_calculate =
      Except.ok (df_calculate parameters,
        cacheStore cache (parameters, DFname) (df_calculate parameters),
        true) ∧
    cacheLookup
        (cacheStore cache (parameters, DFname) (df_calculate parameters))
        (parameters, DFname) = some (df_calculate parameters) ∧
    cols2 (df_calculate parameters) = parameters.length) ∧
    (DataBase_df_boxes cache3 fname3 parameters 12 df_boxes_calculate =
      Except.ok (df_boxes_calculate parameters 12,
        cacheStore cache3 (parameters, fname3 12)
          (df_boxes_calculate parameters 12), true) ∧
    cacheLookup (cacheStore cache3 (parameters, fname3 12)
        (df_boxes_calculate parameters 12)) (parameters, fname3 12) =
      some (df_boxes_calculate parameters 12) ∧
    cols3 (df_boxes_calculate parameters 12) = parameters.length) := by
  refine ⟨⟨?_, cacheLookup_store _ _ _, hfresh⟩,
    ⟨?_, cacheLookup_store _ _ _, hfresh3cols⟩⟩
  · simp only [DataBaseHDD_df, cache_get_value, hhit]
    rw [if_pos hlen, if_neg (by omega : ¬ cols2 cached > parameters.length),
      if_pos hfewer, if_pos hfresh]
  · have hctd : max 12 DEFAULT_BOXES_T_DIM = 12 := by
      simp [DEFAULT_BOXES_T_DIM]
    simp only [DataBase_df_boxes, cache_get_value, hctd, hhit3]
    rw [if_neg (by omega : ¬ cols3 cached3 > parameters.length),
      if_pos hfewer3]
    have hlt : ¬ (12 < DEFAULT_BOXES_T_DIM) := by
      simp [DEFAULT_BOXES_T_DIM]
    rw [if_neg hlt, if_pos ⟨hfresh3shape, hfresh3cols⟩]

/-- Witness for the amended C5 at a concrete input: 1 x 1 cached
Jacobians reconciled against a two-element parameter vector, with the
evaluator returning 1 x 2 (respectively 1 x 12 x 2) fresh arrays. -/
theorem df_stale_recompute_overwrites_and_returns_fresh_witness :
    (cacheLookup [(([3, 4], "DF.npy"), [[5]])] ([3, 4], "DF.npy") =
        some [[5]] ∧
      ([[5]] : Arr2).length = 1 ∧
      cols2 [[5]] < ([3, 4] : List ℚ).length ∧
      cols2 [[7, 8]] = ([3, 4] : List ℚ).length ∧
      cacheLookup [(([3, 4], "dfb_12"), [List.replicate 12 [5]])]
          ([3, 4], "dfb_12") = some [List.replicate 12 [5]] ∧
      cols3 [List.replicate 12 [5]] < ([3, 4] : List ℚ).length ∧
      shape1_3 [List.replicate 12 [7, 8]] = 12 ∧
      cols3 [List.replicate 12 [7, 8]] = ([3, 4] : List ℚ).length) ∧
    ((DataBaseHDD_df [(([3, 4], "DF.npy"), [[5]])] "DF.npy" 1 [3, 4]
        (fun _ => [[7, 8]]) =
      Except.ok ([[7, 8]],
        cacheStore [(([3, 4], "DF.npy"), [[5]])] ([3, 4], "DF.npy")
          [[7, 8]], true) ∧
    cacheLookup (cacheStore [(([3, 4], "DF.npy"), ([[5]] : Arr2))]
        ([3, 4], "DF.npy") [[7, 8]]) ([3, 4], "DF.npy") = some [[7, 8]] ∧
    cols2 [[7, 8]] = ([3, 4] : List ℚ).length) ∧
    (DataBase_df_boxes [(([3, 4], "dfb_12"), [List.replicate 12 [5]])]
        (fun _ => "dfb_12") [3, 4] 12 (fun _ _ => [List.replicate 12 [7, 8]]) =
      Except.ok ([List.replicate 12 [7, 8]],
        cacheStore [(([3, 4], "dfb_12"), [List.replicate 12 [5]])]
          ([3, 4], "dfb_12") [List.replicate 12 [7, 8]], true) ∧
    cacheLookup (cacheStore [(([3, 4], "dfb_12"),
          ([List.replicate 12 [5]] : Arr3))]
        ([3, 4], "dfb_12") [List.replicate 12 [7, 8]]) ([3, 4], "dfb_12") =
      some [List.replicate 12 [7, 8]] ∧
    cols3 [List.replicate 12 [7, 8]] = ([3, 4] : List ℚ).length)) := by
  refine ⟨⟨?_, ?_, ?_, ?_, ?_, ?_, ?_, ?_⟩, ?_⟩
  · simp [cacheLookup]
  · simp
  · simp [cols2]
  · simp [cols2]
  · simp [cacheLookup]
  · simp [cols3]
  · simp [shape1_3]
  · simp [cols3]
  · exact df_stale_recompute_overwrites_and_returns_fresh
      [(([3, 4], "DF.npy"), [[5]])] "DF.npy" 1 [3, 4] (fun _ => [[7, 8]])
      [[5]] (by simp [cacheLookup]) (by simp) (by simp [cols2])
      (by simp [cols2])
      [(([3, 4], "dfb_12"), [List.replicate 12 [5]])] (fun _ => "dfb_12")
      (fun _ _ => [List.replicate 12 [7, 8]]) [List.replicate 12 [5]]
      (by simp [cacheLookup]) (by simp [cols3]) (by simp [shape1_3])
      (by simp [cols3])

lemma cache_get_value_lookup {α : Type} (cache : HddCache α)
    (key : List ℚ × String) (f : List ℚ → α) :
    cacheLookup ((cache_get_value cache key f).2.1) key =
      some ((cache_get_value cache key f).1) := by
  unfold cache_get_value
  cases h : cacheLookup cache key with
  | some v => simp [h]
  | none => simp [h, cacheLookup_store]

lemma shape1_boxes_change_dim (arr : BoxArr) (t : ℕ) (hne : arr ≠ []) :
    shape1 (boxes_change_dim arr t) = t := by
  cases arr with
  | nil => exact absurd rfl hne
  | cons row rest => simp [shape1, boxes_change_dim, change_dim_scalar]

lemma shape1_3_df_change_dim (arr : Arr3) (t : ℕ) (hne : arr ≠ []) :
    shape1_3 (df_boxes_change_dim arr t) = t := by
  cases arr with
  | nil => exact absurd rfl hne
  | cons ts rest => simp [shape1_3, df_boxes_change_dim]

lemma length_foldl_zipWith (rs : List (List ℚ)) (r : List ℚ) (p : ℕ)
    (hr : r.length = p) (huni : ∀ x ∈ rs, x.length = p) :
    (List.foldl (fun acc row => acc.zipWith (fun a b => a + b) row) r
      rs).length = p := by
  induction rs generalizing r with
  | nil => simpa using hr
  | cons x xs ih =>
    simp only [List.foldl_cons]
    refine ih (r.zipWith (fun a b => a + b) x) ?_ ?_
    · rw [List.length_zipWith, hr, huni x (by simp)]
      omega
    · intro y hy
      exact huni y (by simp [hy])

lemma meanRows_length (rows : List (List ℚ)) (p : ℕ) (hne : rows ≠ [])
    (huni : ∀ r ∈ rows, r.length = p) : (meanRows rows).length = p := by
  cases rows with
  | nil => exact absurd rfl hne
  | cons r rs =>
    simp only [meanRows, List.length_map]
    exact length_foldl_zipWith rs r p (huni r (by simp))
      (fun x hx => huni x (by simp [hx]))

lemma cols3_df_change_dim (ts : List (List ℚ)) (rest : Arr3) (t p : ℕ)
    (ht : 0 < t) (hT : t ≤ ts.length)
    (huni : ∀ r ∈ ts, r.length = p) :
    cols3 (df_boxes_change_dim (ts :: rest) t) = p := by
  have hdiv : 1 ≤ ts.length / t := by
    rw [Nat.le_div_iff_mul_le ht]
    omega
  obtain ⟨t', rfl⟩ : ∃ t', t = t' + 1 := ⟨t - 1, by omega⟩
  have hblock : (ts.take (ts.length / (t' + 1))) ≠ [] := by
    have hlen : (ts.take (ts.length / (t' + 1))).length =
        min (ts.length / (t' + 1)) ts.length := List.length_take _ _
    intro hempty
    rw [hempty] at hlen
    simp at hlen
    omega
  simp only [df_boxes_change_dim, cols3, List.head?_cons,
    List.range_succ_eq_map, List.map_cons]
  simp only [Nat.zero_mul, List.drop_zero]
  simp
  exact meanRows_length _ p hblock
    (fun r hr => huni r (List.mem_of_mem_take hr))

/-- C6: for every requested time_dim (at least 1), DataBase.f_boxes and
DataBase.df_boxes compute and cache the result at the time dimension
ctd = max(time_dim, DEFAULT_BOXES_T_DIM) (with DEFAULT_BOXES_T_DIM =
12); when time_dim is smaller than the default, the cached canonical
array is downsampled along the time axis before returning while the
canonical cache entry still holds the canonical (undownsampled) array;
and the returned array's time axis length (shape[1]) exactly equals the
requested time_dim.  The hypotheses name the canonical array, cache
state and evaluator flag produced by the get_value step and assume the
model evaluator's shape contract for it. -/
theorem boxes_time_dim_reconciliation
    (cache : HddCache BoxArr) (fname : ℕ → String) (parameters : List ℚ)
    (time_dim ctd : ℕ) (fcalc : List ℚ → ℕ → BoxArr)
    (canonical : BoxArr) (cacheOut : HddCache BoxArr) (called : Bool)
    (hctd : ctd = max time_dim DEFAULT_BOXES_T_DIM)
    (hget : cache_get_value cache (parameters, fname ctd)
        (fun p => fcalc p ctd) = (canonical, cacheOut, called))
    (hshape : shape1 canonical = ctd)
    (hne : canonical ≠ [])
    (cache3 : HddCache Arr3) (fname3 : ℕ → String)
    (dfcalc : List ℚ → ℕ → Arr3)
    (canonical3 : Arr3) (cacheOut3 : HddCache Arr3) (called3 : Bool)
    (hget3 : cache_get_value cache3 (parameters, fname3 ctd)
        (fun p => dfcalc p ctd) = (canonical3, cacheOut3, called3))
    (hshape3 : shape1_3 canonical3 = ctd)
    (hne3 : canonical3 ≠ [])
    (hcols3 : cols3 canonical3 = parameters.length)
    (huni3 : ∀ ts ∈ canonical3, ∀ r ∈ ts, r.length = parameters.length)
    (ht : 0 < time_dim) :
    (DataBase_f_boxes cache fname parameters time_dim fcalc =
      Except.ok ((if time_dim < DEFAULT_BOXES_T_DIM then
          boxes_change_dim canonical time_dim else canonical),
        cacheOut, called) ∧
      cacheLookup cacheOut (parameters, fname ctd) = some canonical ∧
      shape1 (if time_dim < DEFAULT_BOXES_T_DIM then
        boxes_change_dim canonical time_dim else canonical) = time_dim) ∧
    (DataBase_df_boxes cache3 fname3 parameters time_dim dfcalc =
      Except.ok ((if time_dim < DEFAULT_BOXES_T_DIM then
          df_boxes_change_dim canonical3 time_dim else canonical3),
        cacheOut3, called3) ∧
      cacheLookup cacheOut3 (parameters, fname3 ctd) = some canonical3 ∧
      shape1_3 (if time_dim < DEFAULT_BOXES_T_DIM then
        df_boxes_change_dim canonical3 time_dim else canonical3) =
          time_dim) := by
  subst hctd
  have hshape_res : shape1 (if time_dim < DEFAULT_BOXES_T_DIM then
      boxes_change_dim canonical time_dim else canonical) = time_dim := by
    by_cases hlt : time_dim < DEFAULT_BOXES_T_DIM
    · rw [if_pos hlt]
      exact shape1_boxes_change_dim canonical time_dim hne
    · rw [if_neg hlt, hshape]
      omega
  have hcols3_res : cols3 (if time_dim < DEFAULT_BOXES_T_DIM then
      df_boxes_change_dim canonical3 time_dim else canonical3) =
      parameters.length := by
    by_cases hlt : time_dim < DEFAULT_BOXES_T_DIM
    · rw [if_pos hlt]
      cases canonical3 with
      | nil => exact absurd rfl hne3
      | cons ts rest =>
        refine cols3_df_change_dim ts rest time_dim parameters.length ht
          ?_ (huni3 ts (by simp))
        have : ts.length = max time_dim DEFAULT_BOXES_T_DIM := by
          simpa [shape1_3] using hshape3
        omega
    · rw [if_neg hlt]
      exact hcols3
  have hshape3_res : shape1_3 (if time_dim < DEFAULT_BOXES_T_DIM then
      df_boxes_change_dim canonical3 time_dim else canonical3) =
      time_dim := by
    by_cases hlt : time_dim < DEFAULT_BOXES_T_DIM
    · rw [if_pos hlt]
      exact shape1_3_df_change_dim canonical3 time_dim hne3
    · rw [if_neg hlt, hshape3]
      omega
  refine ⟨⟨?_, ?_, hshape_res⟩, ⟨?_, ?_, hshape3_res⟩⟩
  · simp only [DataBase_f_boxes, hget]
    rw [if_pos hshape_res]
  · have h := cache_get_value_lookup cache (parameters,
      fname (max time_dim DEFAULT_BOXES_T_DIM))
      (fun p => fcalc p (max time_dim DEFAULT_BOXES_T_DIM))
    rw [hget] at h
    exact h
  · simp only [DataBase_df_boxes, hget3]
    rw [if_neg (by omega : ¬ cols3 canonical3 > parameters.length),
      if_neg (by omega : ¬ cols3 canonical3 < parameters.length)]
    rw [if_pos ⟨hshape3_res, hcols3_res⟩]
  · have h := cache_get_value_lookup cache3 (parameters,
      fname3 (max time_dim DEFAULT_BOXES_T_DIM))
      (fun p => dfcalc p (max time_dim DEFAULT_BOXES_T_DIM))
    rw [hget3] at h
    exact h

/-- Witness for C6 at a concrete input: a coarse request time_dim = 6
against canonical 12-step cached series for one tracer row. -/
theorem boxes_time_dim_reconciliation_witness :
    ((12 : ℕ) = max 6 DEFAULT_BOXES_T_DIM ∧
      cache_get_value [(([1], "f12"), [List.replicate 12 (2 : ℚ)])]
          ([1], "f12") (fun _ => [List.replicate 12 (2 : ℚ)]) =
        ([List.replicate 12 (2 : ℚ)],
          [(([1], "f12"), [List.replicate 12 (2 : ℚ)])], false) ∧
      shape1 [List.replicate 12 (2 : ℚ)] = 12 ∧
      cache_get_value [(([1], "df12"), [List.replicate 12 [(3 : ℚ)]])]
          ([1], "df12") (fun _ => [List.replicate 12 [(3 : ℚ)]]) =
        ([List.replicate 12 [(3 : ℚ)]],
          [(([1], "df12"), [List.replicate 12 [(3 : ℚ)]])], false) ∧
      shape1_3 [List.replicate 12 [(3 : ℚ)]] = 12 ∧
      cols3 [List.replicate 12 [(3 : ℚ)]] = ([1] : List ℚ).length ∧
      (0 : ℕ) < 6) ∧
    ((DataBase_f_boxes [(([1], "f12"), [List.replicate 12 (2 : ℚ)])]
        (fun _ => "f12") [1] 6 (fun _ _ => [List.replicate 12 (2 : ℚ)]) =
      Except.ok ((if 6 < DEFAULT_BOXES_T_DIM then
          boxes_change_dim [List.replicate 12 (2 : ℚ)] 6
        else [List.replicate 12 (2 : ℚ)]),
        [(([1], "f12"), [List.replicate 12 (2 : ℚ)])], false) ∧
      cacheLookup [(([1], "f12"), [List.replicate 12 (2 : ℚ)])]
        ([1], "f12") = some [List.replicate 12 (2 : ℚ)] ∧
      shape1 (if 6 < DEFAULT_BOXES_T_DIM then
        boxes_change_dim [List.replicate 12 (2 : ℚ)] 6
      else [List.replicate 12 (2 : ℚ)]) = 6) ∧
    (DataBase_df_boxes [(([1], "df12"), [List.replicate 12 [(3 : ℚ)]])]
        (fun _ => "df12") [1] 6 (fun _ _ => [List.replicate 12 [(3 : ℚ)]]) =
      Except.ok ((if 6 < DEFAULT_BOXES_T_DIM then
          df_boxes_change_dim [List.replicate 12 [(3 : ℚ)]] 6
        else [List.replicate 12 [(3 : ℚ)]]),
        [(([1], "df12"), [List.replicate 12 [(3 : ℚ)]])], false) ∧
      cacheLookup [(([1], "df12"), [List.replicate 12 [(3 : ℚ)]])]
        ([1], "df12") = some [List.replicate 12 [(3 : ℚ)]] ∧
      shape1_3 (if 6 < DEFAULT_BOXES_T_DIM then
        df_boxes_change_dim [List.replicate 12 [(3 : ℚ)]] 6
      else [List.replicate 12 [(3 : ℚ)]]) = 6)) := by
  refine ⟨⟨by simp [DEFAULT_BOXES_T_DIM], ?_, by simp [shape1], ?_,
    by simp [shape1_3], by simp [cols3], by norm_num⟩, ?_⟩
  · simp [cache_get_value, cacheLookup]
  · simp [cache_get_value, cacheLookup]
  · have h := boxes_time_dim_reconciliation
      [(([1], "f12"), [List.replicate 12 (2 : ℚ)])] (fun _ => "f12") [1]
      6 12 (fun _ _ => [List.replicate 12 (2 : ℚ)])
      [List.replicate 12 (2 : ℚ)]
      [(([1], "f12"), [List.replicate 12 (2 : ℚ)])] false
      (by simp [DEFAULT_BOXES_T_DIM])
      (by simp [cache_get_value, cacheLookup]) (by simp [shape1])
      (by simp)
      [(([1], "df12"), [List.replicate 12 [(3 : ℚ)]])] (fun _ => "df12")
      (fun _ _ => [List.replicate 12 [(3 : ℚ)]])
      [List.replicate 12 [(3 : ℚ)]]
      [(([1], "df12"), [List.replicate 12 [(3 : ℚ)]])] false
      (by simp [cache_get_value, cacheLookup]) (by simp [shape1_3])
      (by simp) (by simp [cols3])
      (by
        intro ts hts r hr
        simp at hts
        subst hts
        simp at hr
        simp [hr])
      (by norm_num)
    exact h

/-- Witness for C8 at a concrete input: cached 1 x 2 Jacobian for the
one-element parameter vector [1] (a surplus of exactly one column). -/
theorem DataBase_df_assert_guards_witness :
    (pmcLookup ⟨some ([1], [("DF", [[2, 3]])])⟩ [1] "DF" =
        some [[2, 3]] ∧
      ([[2, 3]] : Arr2).length = 1) ∧
    ((cols2 [[2, 3]] < ([1] : List ℚ).length ∨
        ([1] : List ℚ).length + 1 < cols2 [[2, 3]] →
      DataBase_df ⟨some ([1], [("DF", [[2, 3]])])⟩ 1 [1]
          (fun _ => [[9]]) = Except.error PyErr.assertionError) ∧
    (cols2 [[2, 3]] = ([1] : List ℚ).length + 1 →
      DataBase_df ⟨some ([1], [("DF", [[2, 3]])])⟩ 1 [1]
          (fun _ => [[9]]) =
        Except.ok ([[2, 3]].map (fun row =>
            row.take ([1] : List ℚ).length),
          ⟨some ([1], [("DF", [[2, 3]])])⟩, false, false)) ∧
    (∀ (c' : ParamMemCache) (m' : ℕ) (ps : List ℚ)
        (f : List ℚ → Arr2) (r : Arr2 × ParamMemCache × Bool × Bool),
      DataBase_df c' m' ps f = Except.ok r → r.2.2.2 = false)) := by
  refine ⟨⟨?_, ?_⟩, ?_⟩
  · simp [pmcLookup, List.find?]
  · simp
  · exact DataBase_df_assert_guards ⟨some ([1], [("DF", [[2, 3]])])⟩ 1 [1]
      (fun _ => [[9]]) [[2, 3]] (by simp [pmcLookup, List.find?]) (by simp)

/-! ## Data-kind dispatch (init_data_base and Family)

Python strings are modelled as lists of characters, with structurally
recursive embeddings of the string operations the code uses
(str.upper, str.startswith, str.split of a single dot, int). -/

/-- Result of init_data_base: which concrete DataBase class is
instantiated, with its max_land_boxes argument where applicable. -/
inductive DataBaseKind where
  | woa : DataBaseKind
  | wod : DataBaseKind
  | wodTMM (max_land_boxes : ℤ) : DataBaseKind
  | oldwodTMM (max_land_boxes : ℤ) : DataBaseKind
deriving DecidableEq, Repr

/-- Python str.upper on one character (ASCII range, which covers every
data-kind string the code compares against). -/
def pyUpperChar (c : Char) : Char :=
  if 'a' ≤ c ∧ c ≤ 'z' then Char.ofNat (c.toNat - 32) else c

/-- Python str.upper. -/
def pyUpper (s : List Char) : List Char := s.map pyUpperChar

/-- Helper for Python str.split of a single dot. -/
def pySplitDotAux (s : List Char) (acc : List Char) : List (List Char) :=
  match s with
  | [] => [acc.reverse]
  | c :: rest =>
    if c = '.' then acc.reverse :: pySplitDotAux rest []
    else pySplitDotAux rest (c :: acc)

/-- Python str.split of a dot separator. -/
def pySplitDot (s : List Char) : List (List Char) := pySplitDotAux s []

/-- Python int() restricted to unsigned decimal literals (the only form
the data-kind strings carry): all-digit nonempty strings parse, anything
else raises ValueError. -/
def pyInt (s : List Char) : Except PyErr ℤ :=
  if s ≠ [] ∧ s.all Char.isDigit then
    Except.ok (s.foldl (fun acc c => acc * 10 + ((c.toNat - '0'.toNat : ℕ) : ℤ)) 0)
  else
    Except.error (PyErr.valueError
      ("invalid literal for int() with base 10: " ++ String.mk s))

/-- Embedding of init_data_base (data_base.py lines 708-726): dispatch
on the data-kind string.  The WOA and WOD comparisons and the prefix
tests use the uppercased string, but the assert inside the WOD/OLDWOD
prefix branches compares the first dot-component of the original
(uncased) string with the exact-case 'WOD'/'OLDWOD'. -/
def init_data_base (data_kind : List Char) : Except PyErr DataBaseKind :=
  if pyUpper data_kind = "WOA".toList then Except.ok DataBaseKind.woa
  else if pyUpper data_kind = "WOD".toList then Except.ok DataBaseKind.wod
  else if List.isPrefixOf "WOD".toList (pyUpper data_kind) then
    let splitted := pySplitDot data_kind
    if splitted.length = 2 ∧ splitted.headD [] = "WOD".toList then
      match pyInt (splitted.getD 1 []) with
      | Except.ok k => Except.ok (DataBaseKind.wodTMM k)
      | Except.error e => Except.error e
    else Except.error PyErr.assertionError
  else if List.isPrefixOf "OLDWOD".toList (pyUpper data_kind) then
    let splitted := pySplitDot data_kind
    if splitted.length = 2 ∧ splitted.headD [] = "OLDWOD".toList then
      match pyInt (splitted.getD 1 []) with
      | Except.ok k => Except.ok (DataBaseKind.oldwodTMM k)
      | Except.error e => Except.error e
    else Except.error PyErr.assertionError
  else
    Except.error (PyErr.valueError ("Data_kind " ++ String.mk data_kind ++
      " unknown. Must be \"WOA\", \"WOD\" or \"WOD.\"."))

/-- Embedding of Family.__init__'s member-class dispatch (data_base.py
lines 736-742): the data-kind is uppercased, looked up among the member
classes, and an unknown key raises a ValueError naming the key and the
allowed keys. -/
def Family_init {α : Type} (member_classes : List (List Char × α))
    (cf_data_kind : List Char) : Except PyErr α :=
  let data_kind := pyUpper cf_data_kind
  match (member_classes.find? (fun e => decide (e.1 = data_kind))).map
      (fun e => e.2) with
  | some v => Except.ok v
  | none =>
    Except.error (PyErr.valueError ("Data_kind " ++ String.mk data_kind ++
      " unknown. Must be in [" ++
      String.intercalate ", "
        (member_classes.map (fun e => String.mk e.1)) ++ "]."))

/-- Counterexample to C7 as stated: the string 'WODX' matches none of
the recognized forms ('WOA', 'WOD', 'WOD.n', 'OLDWOD.n'), yet
init_data_base raises an AssertionError (the assert in the WOD-prefix
branch fails on the single dot-component) rather than the descriptive
ValueError the claim promises for every unrecognized string. -/
theorem init_data_base_wodx_assertion :
    init_data_base "WODX".toList = Except.error PyErr.assertionError := by
  decide

/-- C7 (amended): every data-kind string whose uppercase form is neither
'WOA' nor 'WOD' and does not even begin with 'WOD' or 'OLDWOD' makes
init_data_base raise the descriptive ValueError naming the unrecognized
value and the allowed set; strings that begin with one of those prefixes
but are malformed instead fail the internal assertion or the int
conversion (see the counterexample).  Family.__init__ raises a
ValueError naming the unknown (uppercased) data_kind and the list of
allowed member-class keys whenever the data_kind is not a key of
member_classes. -/
theorem init_data_base_unknown_raises_value_error {α : Type}
    (data_kind : List Char)
    (hwoa : pyUpper data_kind ≠ "WOA".toList)
    (hwod : pyUpper data_kind ≠ "WOD".toList)
    (hpw : ¬ List.isPrefixOf "WOD".toList (pyUpper data_kind))
    (hpo : ¬ List.isPrefixOf "OLDWOD".toList (pyUpper data_kind))
    (member_classes : List (List Char × α))
    (hkey : ∀ e ∈ member_classes, e.1 ≠ pyUpper data_kind) :
    init_data_base data_kind =
      Except.error (PyErr.valueError ("Data_kind " ++
        String.mk data_kind ++
        " unknown. Must be \"WOA\", \"WOD\" or \"WOD.\".")) ∧
    Family_init member_classes data_kind =
      Except.error (PyErr.valueError ("Data_kind " ++
        String.mk (pyUpper data_kind) ++ " unknown. Must be in [" ++
        String.intercalate ", "
          (member_classes.map (fun e => String.mk e.1)) ++ "].")) := by
  constructor
  · rw [init_data_base, if_neg hwoa, if_neg hwod,
      if_neg (by simpa using hpw), if_neg (by simpa using hpo)]
  · rw [Family_init]
    have hnone : (member_classes.find?
        (fun e => decide (e.1 = pyUpper data_kind))) = none := by
      rw [List.find?_eq_none]
      intro e he
      simpa using hkey e he
    rw [hnone]
    rfl

/-- Witness for the amended C7 at the concrete unknown string 'FOO' with
member classes keyed by 'WOA'. -/
theorem init_data_base_unknown_raises_value_error_witness :
    (pyUpper "FOO".toList ≠ "WOA".toList ∧
      pyUpper "FOO".toList ≠ "WOD".toList ∧
      ¬ List.isPrefixOf "WOD".toList (pyUpper "FOO".toList) ∧
      ¬ List.isPrefixOf "OLDWOD".toList (pyUpper "FOO".toList) ∧
      ∀ e ∈ [("WOA".toList, (0 : ℕ))], e.1 ≠ pyUpper "FOO".toList) ∧
    (init_data_base "FOO".toList =
      Except.error (PyErr.valueError ("Data_kind " ++
        String.mk "FOO".toList ++
        " unknown. Must be \"WOA\", \"WOD\" or \"WOD.\".")) ∧
    Family_init [("WOA".toList, (0 : ℕ))] "FOO".toList =
      Except.error (PyErr.valueError ("Data_kind " ++
        String.mk (pyUpper "FOO".toList) ++ " unknown. Must be in [" ++
        String.intercalate ", "
          ([("WOA".toList, (0 : ℕ))].map (fun e => String.mk e.1)) ++
        "]."))) := by
  refine ⟨⟨by decide, by decide, by decide, by decide, by decide⟩, ?_⟩
  exact init_data_base_unknown_raises_value_error "FOO".toList
    (by decide) (by decide) (by decide) (by decide)
    [("WOA".toList, (0 : ℕ))] (by decide)

/-! ## WOA.diff_boxes in-place mutation

The WOA memory cache entry for results_boxes holds a reference to the
numpy array produced by the measurement provider; the item assignment in
diff_boxes writes through that reference.  The cache entry is modelled
as an optional list; the arrays are modelled as flat lists (the claims
only concern pointwise masking, not the 5-D layout), the measurement
means, observation mask and model output being parameters. -/

/-- The part of the WOA memory-cache state the claim concerns: the
results_boxes entry (None when not yet computed). -/
structure WOAState where
  results_boxes : Option (List ℚ)
deriving DecidableEq, Repr

/-- The item assignment results_boxes[logical_not(mask)] = no_data_value
(data_base.py line 352): entries where the mask is False are overwritten
with the no-data value. -/
def maskedWrite (rb : List ℚ) (mask : List Bool) (ndv : ℚ) : List ℚ :=
  List.zipWith (fun v keep => if keep then v else ndv) rb mask

/-- Embedding of the WOA.results_boxes property (data_base.py lines
340-342): the cached array, computed from the measurement means on a
miss. -/
def WOA_results_boxes (s : WOAState) (means : List ℚ) :
    List ℚ × WOAState :=
  match s.results_boxes with
  | some v => (v, s)
  | none => (means, ⟨some means⟩)

/-- Embedding of WOA.results_calculate (data_base.py lines 344-345): it
reads the cached results_boxes and applies _get_data_with_annual_averaged
(modelled as an arbitrary post-processing function, since the claim only
concerns which array it reads). -/
def WOA_results_calculate (s : WOAState) (means : List ℚ)
    (annualAveraged : List ℚ → List ℚ) : List ℚ × WOAState :=
  let r := WOA_results_boxes s means
  (annualAveraged r.1, r.2)

/-- Embedding of WOA.diff_boxes (data_base.py lines 350-356) with
normalize_with_deviation = False: reads the cached results_boxes array,
writes no_data_value into every position whose mask is False (an
in-place numpy item assignment, so the cached entry now holds the
overwritten array), and returns results_boxes - f_boxes(parameters). -/
def WOA_diff_boxes (s : WOAState) (means : List ℚ) (mask : List Bool)
    (ndv : ℚ) (fBoxes : List ℚ) : List ℚ × WOAState :=
  let r := WOA_results_boxes s means
  let rb := maskedWrite r.1 mask ndv
  (List.zipWith (fun x y => x - y) rb fBoxes, ⟨some rb⟩)

/-- C9: WOA.diff_boxes mutates the memory-cached results_boxes array in
place: after any call on a state whose cache holds rb0, the cached entry
holds the masked overwrite of rb0 (no_data_value at every position whose
mask is False); subsequent reads of the entry, including
results_calculate and a second diff_boxes call, observe the overwritten
values; and every masked-out position reads the no-data value rather
than the originally cached measurement mean. -/
theorem WOA_diff_boxes_mutates_cached_results
    (means fBoxes rb0 : List ℚ) (mask : List Bool) (ndv : ℚ)
    (g : List ℚ → List ℚ) (s0 : WOAState)
    (hs0 : s0.results_boxes = some rb0) :
    ((WOA_diff_boxes s0 means mask ndv fBoxes).2.results_boxes =
      some (maskedWrite rb0 mask ndv)) ∧
    (WOA_results_calculate (WOA_diff_boxes s0 means mask ndv fBoxes).2
        means g =
      (g (maskedWrite rb0 mask ndv),
        (WOA_diff_boxes s0 means mask ndv fBoxes).2)) ∧
    ((WOA_diff_boxes (WOA_diff_boxes s0 means mask ndv fBoxes).2 means
        mask ndv fBoxes).1 =
      List.zipWith (fun x y => x - y)
        (maskedWrite (maskedWrite rb0 mask ndv) mask ndv) fBoxes) ∧
    (∀ (i : ℕ) (h : i < (maskedWrite rb0 mask ndv).length),
      mask.getD i true = false →
        (maskedWrite rb0 mask ndv).get ⟨i, h⟩ = ndv) := by
  refine ⟨?_, ?_, ?_, ?_⟩
  · simp [WOA_diff_boxes, WOA_results_boxes, hs0]
  · simp [WOA_results_calculate, WOA_diff_boxes, WOA_results_boxes, hs0]
  · simp [WOA_diff_boxes, WOA_results_boxes, hs0]
  · intro i h hmask
    have hlen : i < rb0.length ∧ i < mask.length := by
      simpa [maskedWrite, List.length_zipWith] using h
    rw [List.get_eq_getElem]
    simp only [maskedWrite, List.getElem_zipWith]
    rw [List.getD_eq_getElem mask true hlen.2] at hmask
    simp [hmask]

/-- Witness for C9 at a concrete input: cached means [1, 2] with mask
[true, false] and no-data value 9. -/
theorem WOA_diff_boxes_mutates_cached_results_witness :
    ((⟨some [1, 2]⟩ : WOAState).results_boxes = some [1, 2]) ∧
    (((WOA_diff_boxes ⟨some [1, 2]⟩ [1, 2] [true, false] 9
        [0, 0]).2.results_boxes =
      some (maskedWrite [1, 2] [true, false] 9)) ∧
    (WOA_results_calculate (WOA_diff_boxes ⟨some [1, 2]⟩ [1, 2]
        [true, false] 9 [0, 0]).2 [1, 2] id =
      (id (maskedWrite [1, 2] [true, false] 9),
        (WOA_diff_boxes ⟨some [1, 2]⟩ [1, 2] [true, false] 9 [0, 0]).2)) ∧
    ((WOA_diff_boxes (WOA_diff_boxes ⟨some [1, 2]⟩ [1, 2] [true, false] 9
        [0, 0]).2 [1, 2] [true, false] 9 [0, 0]).1 =
      List.zipWith (fun x y => x - y)
        (maskedWrite (maskedWrite [1, 2] [true, false] 9) [true, false] 9)
        [0, 0]) ∧
    (∀ (i : ℕ) (h : i < (maskedWrite [1, 2] [true, false] 9).length),
      ([true, false] : List Bool).getD i true = false →
        (maskedWrite [1, 2] [true, false] 9).get ⟨i, h⟩ = 9)) := by
  exact ⟨rfl, WOA_diff_boxes_mutates_cached_results [1, 2] [0, 0] [1, 2]
    [true, false] 9 id ⟨some [1, 2]⟩ rfl⟩

/-! ## WOD.diff and the missing F attribute

Python resolves self.F at call time by searching the instance dictionary
and the method resolution order WOD -> DataBaseHDD -> WOD_Base ->
DataBase.  The list below enumerates every attribute those class bodies
define and every instance attribute their __init__ methods assign (from
data_base.py); none of the classes defines __getattr__, so a name
outside this list raises AttributeError. -/

/-- Attribute names defined on WOD instances: class-body definitions of
DataBase (lines 26-241), DataBaseHDD (lines 247-285), WOD_Base (lines
363-405) and WOD (lines 412-597), plus the instance attributes assigned
in their __init__ methods. -/
def WOD_attribute_names : List String :=
  ["__init__", "__str__", "f_boxes_cache_filename",
   "df_boxes_cache_filename", "f_boxes_calculate", "f_boxes",
   "df_boxes_calculate", "df_boxes", "f_calculate", "f", "df_calculate",
   "df", "m", "results_calculate", "results", "deviations_calculate",
   "deviations", "inverse_deviations", "variances", "inverse_variances",
   "average_variance", "inverse_average_variance", "deviations_boxes",
   "inverse_deviations_boxes",
   "F_cache_filename", "DF_cache_filename",
   "points", "m_dop", "m_po4", "correlation_matrix_calculate",
   "correlation_matrix",
   "correlation_matrix_cholesky_decomposition_calculate",
   "correlation_matrix_cholesky_decomposition",
   "points_calculate", "correlation_parameters", "check_regularity",
   "ln_det_correlation_matrix", "project",
   "projected_product_inverse_correlation_matrix_both_sides", "diff",
   "convert_to_boxes",
   "_f_boxes_cache_filename", "_df_boxes_cache_filename",
   "default_boxes_t_dim", "model", "hdd_cache", "memory_cache",
   "memory_cache_with_parameters", "_F_cache_filename",
   "_DF_cache_filename"]

/-- Embedding of WOD.diff (data_base.py lines 574-578) with
normalize_with_deviation = False: diff = self.results - self.F(parameters).
The attribute lookup of self.F is explicit; when it fails (F is not in
the attribute table) Python raises AttributeError before any
subtraction, so the success branch is unreachable and returns a dummy
value. -/
def WOD_diff (results _parameters : List ℚ) : Except PyErr (List ℚ) :=
  match WOD_attribute_names.find? (fun nm => nm = "F") with
  | some _ => Except.ok results
  | none => Except.error (PyErr.attributeError "F")

/-- C10: no attribute or method named F is defined anywhere in the
DataBase / DataBaseHDD / WOD_Base / WOD hierarchy (only the lowercase f
method and the F_cache_filename property exist), so every invocation of
WOD.diff raises an AttributeError from the self.F(parameters) call and
the method can never return a value. -/
theorem WOD_diff_always_raises_attribute_error :
    "F" ∉ WOD_attribute_names ∧
    "f" ∈ WOD_attribute_names ∧
    "F_cache_filename" ∈ WOD_attribute_names ∧
    ∀ (results parameters : List ℚ),
      WOD_diff results parameters =
        Except.error (PyErr.attributeError "F") := by
  refine ⟨by decide, by decide, by decide, fun results _ => ?_⟩
  rfl
